import Mathlib

set_option maxHeartbeats 1000000

/-!
A shallow embedding of `src/printer_controller.py` (class `PrinterController`).

Conventions of the embedding:
* The serial device is replaced by environment scripts: a `ConnectOutcome` for
  each `connect()` call and a list of `ReadEv` read events for each pass of the
  acknowledgment-wait loop of `send_command`.  A read event is either a line
  that `readline()` returned or an `OSError` raised by the device.  An empty
  (or exhausted) event list models the 30 s timeout elapsing with no
  terminating line.
* Python threads are modelled by interleaving: the `_print_loop` body runs as
  atomic steps (`Ev.eiter`), and the public operations may be interleaved
  between any two such steps.  The boolean `loopAlive` records whether a print
  thread is running; `ra` holds the loop's local `reconnect_attempts` counter.
* Decimal numerals parsed by `float(...)` are modelled exactly by `PFloat`
  (mantissa / 10 ^ exp, canonical with trailing zeros stripped), so equal
  decimal values are equal terms.  `float` never fails on the matched text
  except when it is malformed (`no digit` or more than one `.`), which
  `floatOf` models by returning `none` (Python raises `ValueError`, swallowed
  by the bare `except` of `_parse_temperature`).
* The progress computation `int((current_line / total_lines) * 100)` of line
  299 runs in IEEE-754 binary64: `pyProgress` reproduces it bit-exactly
  (correctly-rounded division, correctly-rounded multiplication by 100.0,
  truncation), assuming the operands are below `2 ^ 53`; it differs from the
  exact floor at some ratios (`pyProgress 29 100 = 28`).
-/

namespace Ender3

/-- Characters Python's `str.strip()` removes (`string.whitespace`). -/
def pySpace (c : Char) : Bool :=
  c = ' ' || c = '\t' || c = '\n' || c = '\r' || c = '\x0b' || c = '\x0c'

/-- Characters matched by the regex class `[\d.]` (ASCII inputs). -/
def digitDot (c : Char) : Bool := c.isDigit || c = '.'

/-- Whether `needle` occurs as a prefix of `hay` (character lists). -/
def listPre : List Char → List Char → Bool
  | [], _ => true
  | _ :: _, [] => false
  | a :: as, b :: bs => a = b && listPre as bs

/-- Whether `needle` occurs as a contiguous substring of `hay`: Python's `in`. -/
def containsSub (needle : List Char) : List Char → Bool
  | [] => needle.isEmpty
  | c :: rest => listPre needle (c :: rest) || containsSub needle rest

/-- Python's `needle in hay` on strings (case-sensitive). -/
def hasSub (needle hay : String) : Bool := containsSub needle.data hay.data

/-- `'ok' in line.lower()` — the acknowledgment-token test of `send_command`. -/
def hasOkCI (s : String) : Bool :=
  containsSub "ok".data (s.data.map Char.toLower)

/-- `'error' in line.lower()` — the error-token test of `send_command`. -/
def hasErrCI (s : String) : Bool :=
  containsSub "error".data (s.data.map Char.toLower)

/-- `'Marlin' in response` — the firmware-signature test of `connect`. -/
def hasMarlin (resp : String) : Bool := hasSub "Marlin" resp

/-- `line.startswith('T:') or ' T:' in line` — the guard at lines 145-146 that
decides whether a response line is handed to `_parse_temperature`. -/
def lineGuard (s : String) : Bool :=
  listPre "T:".data s.data || containsSub " T:".data s.data

/-- Python `str.strip()`: drop `pySpace` characters from both ends. -/
def pyStrip (s : String) : String :=
  String.mk (((s.data.dropWhile pySpace).reverse.dropWhile pySpace).reverse)

/-- `line.split(';')[0]`: the prefix of the line before the first `;`. -/
def beforeSemi (s : String) : String :=
  String.mk (s.data.takeWhile (fun c => !(c = ';')))

/-- Helper for `splitNl`: accumulate the current fragment (reversed). -/
def splitNlAux (acc : List Char) : List Char → List String
  | [] => [String.mk acc.reverse]
  | c :: rest =>
      if c = '\n' then String.mk acc.reverse :: splitNlAux [] rest
      else splitNlAux (c :: acc) rest

/-- Python `content.split('\n')`. -/
def splitNl (s : String) : List String := splitNlAux [] s.data

/-- Exact decimal value `mant / 10 ^ exp`; kept canonical (no trailing zero in
the fractional part) so that equal decimal values are equal terms.  Models the
value of Python's `float(text)` on the nonnegative numerals matched by
`[\d.]+`. -/
structure PFloat where
  mant : Nat
  exp : Nat
deriving DecidableEq, Repr

/-- Strip factors of 10 that belong to the fractional part. -/
def canon : Nat → Nat → PFloat
  | m, 0 => ⟨m, 0⟩
  | m, e + 1 => if m % 10 = 0 then canon (m / 10) e else ⟨m, e + 1⟩

/-- Value of a digit string. -/
def digitsToNat (g : List Char) : Nat :=
  g.foldl (fun n c => n * 10 + (c.toNat - 48)) 0

/-- Python `float(text)` for `text` drawn from `[\d.]+`: defined iff the text
has at least one digit and at most one dot; the bare `except` of
`_parse_temperature` turns the `ValueError` of a malformed text into "no
update", which this models by `none`. -/
def floatOf (g : List Char) : Option PFloat :=
  if (g.filter (fun c => c = '.')).length ≤ 1 && g.any Char.isDigit then
    let ip := g.takeWhile (fun c => !(c = '.'))
    let fp := (g.dropWhile (fun c => !(c = '.'))).drop 1
    some (canon (digitsToNat ip * 10 ^ fp.length + digitsToNat fp) fp.length)
  else none

/-- Maximal-munch match for the tail of `re.search(r'L:([\d.]+)\s*/\s*([\d.]+)')`
after the label: a run of `[\d.]`, optional whitespace, `/`, optional
whitespace, a run of `[\d.]`.  Because `[\d.]` matches neither whitespace nor
`/`, greedy matching with backtracking coincides with maximal munch here. -/
def matchTwo (cs : List Char) : Option (List Char × List Char) :=
  let p1 := cs.span digitDot
  if p1.1.isEmpty then none
  else
    match (p1.2.dropWhile pySpace) with
    | '/' :: r3 =>
        let g2 := (r3.dropWhile pySpace).takeWhile digitDot
        if g2.isEmpty then none else some (p1.1, g2)
    | _ => none

/-- Maximal-munch match for the tail of `re.search(r'L:([\d.]+)')`. -/
def matchOne (cs : List Char) : Option (List Char) :=
  let g := cs.takeWhile digitDot
  if g.isEmpty then none else some g

/-- Leftmost search: at the first occurrence of `label` whose tail matches the
two-group pattern, return the two groups (the semantics of `re.search` for the
patterns of `_parse_temperature`). -/
def searchTwo (label : List Char) : List Char → Option (List Char × List Char)
  | [] => none
  | c :: rest =>
      if listPre label (c :: rest) then
        match matchTwo ((c :: rest).drop label.length) with
        | some r => some r
        | none => searchTwo label rest
      else searchTwo label rest

/-- Leftmost search for the one-group pattern. -/
def searchOne (label : List Char) : List Char → Option (List Char)
  | [] => none
  | c :: rest =>
      if listPre label (c :: rest) then
        match matchOne ((c :: rest).drop label.length) with
        | some r => some r
        | none => searchOne label rest
      else searchOne label rest

/-- The hotend label `T:`. -/
def tLab : List Char := "T:".data

/-- The bed label `B:`. -/
def bLab : List Char := "B:".data

/-- `self.temperature` — last-known-good hotend/bed readings. -/
structure Temp where
  bed : PFloat
  bed_target : PFloat
  hotend : PFloat
  hotend_target : PFloat
deriving DecidableEq, Repr

/-- The mutable fields of `PrinterController`, plus `loopAlive` (a print
thread is running) and `ra` (that thread's local `reconnect_attempts`). -/
structure PState where
  connected : Bool
  printing : Bool
  paused : Bool
  stop_flag : Bool
  progress : Nat
  current_line : Nat
  total_lines : Nat
  gcode_lines : List String
  last_error : String
  temp : Temp
  hasSerial : Bool
  tempMon : Bool
  loopAlive : Bool
  ra : Nat
deriving DecidableEq, Repr

/-- Controller state at construction: all-zero / disconnected. -/
def initState : PState :=
  { connected := false, printing := false, paused := false, stop_flag := false
    progress := 0, current_line := 0, total_lines := 0, gcode_lines := []
    last_error := "", temp := ⟨⟨0, 0⟩, ⟨0, 0⟩, ⟨0, 0⟩, ⟨0, 0⟩⟩
    hasSerial := false, tempMon := false, loopAlive := false, ra := 0 }

/-- `_parse_temperature`, bed half (lines 184-191).  A `ValueError` from
`float` aborts the whole function, keeping the updates made so far. -/
def parseBed (st : PState) (cs : List Char) : PState :=
  match searchTwo bLab cs with
  | some (g1, g2) =>
      match floatOf g1 with
      | none => st
      | some v1 =>
          let st1 := { st with temp := { st.temp with bed := v1 } }
          match floatOf g2 with
          | none => st1
          | some v2 => { st1 with temp := { st1.temp with bed_target := v2 } }
  | none =>
      match searchOne bLab cs with
      | some g =>
          match floatOf g with
          | none => st
          | some v => { st with temp := { st.temp with bed := v } }
      | none => st

/-- `_parse_temperature` (lines 167-193): hotend then bed, each with the
two-group `current/target` pattern first and the one-group fallback; a
malformed numeral raises inside the `try`, abandoning the rest. -/
def parseTemperature (st : PState) (line : String) : PState :=
  let cs := line.data
  match searchTwo tLab cs with
  | some (g1, g2) =>
      match floatOf g1 with
      | none => st
      | some v1 =>
          let st1 := { st with temp := { st.temp with hotend := v1 } }
          match floatOf g2 with
          | none => st1
          | some v2 =>
              parseBed { st1 with temp := { st1.temp with hotend_target := v2 } } cs
  | none =>
      match searchOne tLab cs with
      | some g =>
          match floatOf g with
          | none => st
          | some v => parseBed { st with temp := { st.temp with hotend := v } } cs
      | none => parseBed st cs

/-- Lines 144-146 of `send_command`: a read line reaches the Telemetry Parser
only through the `T:`-guard. -/
def procLine (st : PState) (s : String) : PState :=
  if lineGuard s then parseTemperature st s else st

/-- Environment outcome of one `connect()` call (`port` resolution, serial
open, reset and handshake are collapsed into what the controller observes). -/
inductive ConnectOutcome
  | noDevice
  | handshake (resp : String)
  | exn (msg : String)
deriving DecidableEq, Repr

/-- `connect` (lines 44-101): `noDevice` is `find_printer()` failing,
`handshake resp` is a successful open with `resp` the concatenated response to
`M115`, `exn` is any exception along the way. -/
def connectOp (st : PState) (co : ConnectOutcome) : Bool × PState :=
  match co with
  | .noDevice =>
      (false, { st with last_error := "No printer found. Check USB connection." })
  | .handshake resp =>
      let st1 := { st with hasSerial := true }
      if hasMarlin resp || hasOkCI resp then
        (true, { st1 with connected := true, last_error := "", tempMon := true })
      else
        (false, { st1 with last_error := "Printer not responding" })
  | .exn msg =>
      (false, { st with last_error := msg, connected := false })

/-- `stop_print` (lines 332-353): sets the three flags synchronously; the
cleanup writes run fire-and-forget on a daemon thread and touch no state. -/
def stopPrint (st : PState) : PState :=
  { st with stop_flag := true, paused := false, printing := false }

/-- `disconnect` (lines 103-112): `stop_print`, close the port, clear
`connected` and the serial handle. -/
def disconnectOp (st : PState) : PState :=
  let s := stopPrint st
  { s with connected := false, hasSerial := false }

/-- `reconnect` (lines 114-118): `disconnect`, settle, `connect(self.port)`. -/
def reconnectOp (st : PState) (co : ConnectOutcome) : Bool × PState :=
  connectOp (disconnectOp st) co

/-- A device read event during the acknowledgment wait. -/
inductive ReadEv
  | line (s : String)
  | osErr (msg : String)
deriving DecidableEq, Repr

/-- Result of one pass of the wait loop of `send_command` (lines 138-159). -/
inductive WaitOut
  | ack (resp : String)
  | errTok (resp : String)
  | fault (msg : String)
  | timedOut
deriving DecidableEq, Repr

/-- One pass of the wait loop: lines accumulate into the response, each read
line goes through the `T:` guard to the parser, `ok` ends with success,
`error` ends with failure, an `OSError` aborts the pass, and an exhausted
event list is the timeout.  A `ReadEv.line` carries the line as the code sees
it after `readline().decode(...).strip()` (line 141).  Exceptions raised by
the initial `write` go to the same outer handler as any other exception and
are not scripted here. -/
def waitEvs (st : PState) (resp : String) : List ReadEv → WaitOut × PState
  | [] => (.timedOut, st)
  | .line s :: rest =>
      let st1 := procLine st s
      let r1 := resp ++ s ++ "\n"
      if hasOkCI s then (.ack r1, st1)
      else if hasErrCI s then (.errTok r1, st1)
      else waitEvs st1 r1 rest
  | .osErr m :: _ => (.fault m, st)

/-- `send_command` (lines 120-165).  `levels` scripts the read events of each
recursive attempt, `cos` the outcomes of the successive `reconnect()` calls.
The third component counts the `reconnect()` calls performed inside this one
top-level call — the source retries by full recursion (line 158), so one call
can reconnect once per level. -/
def sendAux (st : PState) (cmd : String) (wait : Bool) :
    List (List ReadEv) → List ConnectOutcome → (Bool × String) × PState × Nat
  | levels, cos =>
    if !(st.connected && st.hasSerial) then ((false, "Not connected"), st, 0)
    else
      let c := pyStrip cmd
      if c = "" then ((true, ""), st, 0)
      else if !wait then ((true, ""), st, 0)
      else
        match levels with
        | [] => ((false, "Timeout"), st, 0)
        | evs :: lrest =>
            match waitEvs st "" evs with
            | (.ack r, st1) => ((true, r), st1, 0)
            | (.errTok r, st1) => ((false, r), st1, 0)
            | (.timedOut, st1) => ((false, "Timeout"), st1, 0)
            | (.fault m, st1) =>
                let st2 := { st1 with last_error := "USB Error: " ++ m }
                match cos with
                | [] =>
                    ((false, m), (reconnectOp st2 .noDevice).2, 1)
                | co :: crest =>
                    let rc := reconnectOp st2 co
                    if rc.1 then
                      let r := sendAux rc.2 cmd wait lrest crest
                      (r.1, r.2.1, r.2.2 + 1)
                    else ((false, m), rc.2, 1)

/-- `load_gcode` (lines 209-220), success path, with the file's lines given by
the environment: replace the job, reset cursor and progress.  There is no
guard against a running job. -/
def loadGcode (st : PState) (ls : List String) : Bool × PState :=
  (true, { st with gcode_lines := ls, total_lines := ls.length,
                   current_line := 0, progress := 0 })

/-- `load_gcode_content` (lines 222-232): split on newlines, then as above. -/
def loadGcodeContent (st : PState) (content : String) : Bool × PState :=
  loadGcode st (splitNl content)

/-- `start_print` (lines 234-256): guards in source order, then reset flags
and cursor and launch the executor thread. -/
def startPrint (st : PState) : Bool × PState :=
  if !st.connected then
    (false, { st with last_error := "Not connected to printer" })
  else if st.gcode_lines.isEmpty then
    (false, { st with last_error := "No G-code loaded" })
  else if st.printing then
    (false, { st with last_error := "Already printing" })
  else
    (true, { st with stop_flag := false, paused := false, printing := true,
                     current_line := 0, loopAlive := true, ra := 0 })

/-- `pause_print` (lines 313-321): the four macro commands are sent with
`wait_for_ok=False` and change no state. -/
def pausePrint (st : PState) : PState :=
  if st.printing then { st with paused := true } else st

/-- `resume_print` (lines 323-330). -/
def resumePrint (st : PState) : PState :=
  if st.printing && st.paused then { st with paused := false } else st

/-- Fuel-driven floor of the base-2 logarithm (structural recursion so the
kernel can evaluate it; `n` itself is always enough fuel). -/
def log2fuel : Nat → Nat → Nat
  | 0, _ => 0
  | fuel + 1, n => if 2 ≤ n then log2fuel fuel (n / 2) + 1 else 0

/-- `⌊log₂ n⌋` (0 for `n = 0`). -/
def nlog2 (n : Nat) : Nat := log2fuel n n

/-- Round `N / D` to the nearest integer, ties to even — the IEEE-754
round-to-nearest-even applied to a nonnegative rational. -/
def roundNE (N D : Nat) : Nat :=
  let q := N / D
  let r := N % D
  if 2 * r < D then q
  else if D < 2 * r then q + 1
  else if q % 2 = 0 then q else q + 1

/-- Whether `c / t ≥ 2 ^ e` (exact rational comparison). -/
def gePow2 (c t : Nat) (e : Int) : Bool :=
  if 0 ≤ e then t * 2 ^ e.toNat ≤ c else t ≤ c * 2 ^ (-e).toNat

/-- The binary exponent `E` of `c / t` (for `c, t ≥ 1`):
`2 ^ E ≤ c / t < 2 ^ (E + 1)`. -/
def divExp (c t : Nat) : Int :=
  let e0 : Int := (nlog2 c : Int) - (nlog2 t : Int)
  if gePow2 c t e0 then e0 else e0 - 1

/-- The IEEE-754 double `c / t` (for `c, t ≥ 1`, both below `2 ^ 53` so they
convert to double exactly), as a pair `(m, E)` denoting `m · 2 ^ (E - 52)`
with `2 ^ 52 ≤ m < 2 ^ 53`: scale the exact quotient into the 53-bit mantissa
window and round to nearest, ties to even, renormalizing on carry. -/
def rnDivMant (c t : Nat) : Nat × Int :=
  let E := divExp c t
  let m :=
    if 0 ≤ 52 - E then roundNE (c * 2 ^ (52 - E).toNat) t
    else roundNE c (t * 2 ^ (E - 52).toNat)
  if m = 2 ^ 53 then (2 ^ 52, E + 1) else (m, E)

/-- `⌊m · 2 ^ e⌋` (truncation toward zero of a nonnegative value). -/
def truncPow2 (m : Nat) (e : Int) : Nat :=
  if 0 ≤ e then m * 2 ^ e.toNat else m / 2 ^ (-e).toNat

/-- `int(d * 100.0)` for the double `d = m · 2 ^ (E - 52)`: the exact product
`m · 100 · 2 ^ (E - 52)` is rounded to a 53-bit mantissa (nearest, ties to
even, renormalizing on carry) and the resulting double truncated to an
integer. -/
def mul100Trunc (m : Nat) (E : Int) : Nat :=
  let P := m * 100
  let sh := nlog2 P - 52
  let m2 := roundNE P (2 ^ sh)
  if m2 = 2 ^ 53 then truncPow2 (2 ^ 52) (E - 52 + sh + 1)
  else truncPow2 m2 (E - 52 + sh)

/-- Line 299's `int((current_line / total_lines) * 100)` with Python's binary
floating-point semantics: correctly-rounded double division, correctly-rounded
double multiplication by the exact 100.0, then truncation.  This differs from
the exact floor at some ratios — e.g. `pyProgress 29 100 = 28` while
`⌊29·100/100⌋ = 29` — because `29/100 · 100` rounds just below 29.  `t = 0`
cannot reach this expression in the source (the loop condition guarantees
`current_line < total_lines` before the advance). -/
def pyProgress (c t : Nat) : Nat :=
  if c = 0 || t = 0 then 0
  else mul100Trunc (rnDivMant c t).1 (rnDivMant c t).2

/-- Lines 298-299: advance the cursor and recompute progress through the
floating-point computation `int((c/t)*100)`. -/
def advanceLine (st : PState) : PState :=
  let c := st.current_line + 1
  { st with current_line := c, progress := pyProgress c st.total_lines }

/-- Lines 309-311, run once when the `while` of `_print_loop` is left:
mark not-printing and force progress to 100 unless the stop flag is set. -/
def exitLoop (st : PState) : PState :=
  if st.stop_flag then { st with printing := false, loopAlive := false }
  else { st with printing := false, loopAlive := false, progress := 100 }

/-- Environment for one `_print_loop` iteration: the scripts of the one
`send_command` call and the outcome of the loop's own `reconnect()`. -/
structure IterEnv where
  sendLevels : List (List ReadEv)
  sendCos : List ConnectOutcome
  loopCo : ConnectOutcome
deriving Repr

/-- Lines 284-296 of `_print_loop`: a connection-class failure increments the
counter (already done, `st2.ra`), the cap aborts with the fatal message
(`break`, hence the loop-exit code runs), otherwise reconnect: on success
`continue` retries the same line, on failure fall through and advance. -/
def handleUsb (co : ConnectOutcome) (st2 : PState) : PState :=
  if 5 ≤ st2.ra then
    exitLoop { st2 with
      last_error := "Too many connection errors, stopping print" }
  else if (reconnectOp st2 co).1 then (reconnectOp st2 co).2
  else advanceLine (reconnectOp st2 co).2

/-- Lines 283-299 of `_print_loop`: dispatch on the send outcome `ok` over
the post-send state `st1`; success resets the counter and advances,
connection-class failure goes to `handleUsb`, any other failure is non-fatal
and advances. -/
def handleSend (co : ConnectOutcome) (ok : Bool) (st1 : PState) : PState :=
  if ok then advanceLine { st1 with ra := 0 }
  else if hasSub "USB" st1.last_error || hasSub "Error" st1.last_error then
    handleUsb co { st1 with ra := st1.ra + 1 }
  else advanceLine st1

/-- One step of `_print_loop` (lines 258-311): the `while` condition check
followed by one body iteration, or the loop-exit code when the condition
fails.  `reconnect_attempts` lives in `st.ra`. -/
def printIter (st : PState) (env : IterEnv) : PState :=
  if st.current_line < st.total_lines && !st.stop_flag then
    if st.stop_flag then exitLoop st
    else if st.paused then st
    else if pyStrip (beforeSemi (st.gcode_lines.getD st.current_line "")) = "" then
      advanceLine st
    else if st.stop_flag then exitLoop st
    else
      handleSend env.loopCo
        (sendAux st (pyStrip (beforeSemi (st.gcode_lines.getD st.current_line "")))
          true env.sendLevels env.sendCos).1.1
        (sendAux st (pyStrip (beforeSemi (st.gcode_lines.getD st.current_line "")))
          true env.sendLevels env.sendCos).2.1
  else exitLoop st

/-- The events of the interleaving semantics: one public operation or one
executor step. -/
inductive Ev
  | econnect (co : ConnectOutcome)
  | edisconnect
  | eload (ls : List String)
  | eloadContent (content : String)
  | estart
  | epause
  | eresume
  | estop
  | esend (cmd : String) (wait : Bool)
      (levels : List (List ReadEv)) (cos : List ConnectOutcome)
  | eiter (env : IterEnv)

/-- Apply one event to the controller state. -/
def step (st : PState) : Ev → PState
  | .econnect co => (connectOp st co).2
  | .edisconnect => disconnectOp st
  | .eload ls => (loadGcode st ls).2
  | .eloadContent content => (loadGcodeContent st content).2
  | .estart => (startPrint st).2
  | .epause => pausePrint st
  | .eresume => resumePrint st
  | .estop => stopPrint st
  | .esend cmd wait levels cos => (sendAux st cmd wait levels cos).2.1
  | .eiter env => if st.loopAlive then printIter st env else st

/-- Run a trace of events. -/
def run (st : PState) (evs : List Ev) : PState := evs.foldl step st

/-- `get_status` (lines 359-371), the fields the claims read. -/
structure Status where
  connected : Bool
  printing : Bool
  paused : Bool
  progress : Nat
  current_line : Nat
  total_lines : Nat
  temp : Temp
  err : String
deriving DecidableEq, Repr

/-- Take the status snapshot. -/
def statusOf (s : PState) : Status :=
  ⟨s.connected, s.printing, s.paused, s.progress, s.current_line,
   s.total_lines, s.temp, s.last_error⟩

/-- Well-formed interleavings: exactly one executor task at a time (§5 of the
spec), no job replacement while a job is active, and no pause racing the
executor's own exit (a pause is only issued while the loop still has work and
no stop is pending, or as a no-op while not printing). -/
def okEv (st : PState) : Ev → Bool
  | .estart => !st.loopAlive
  | .eload _ => !st.printing && !st.loopAlive
  | .eloadContent _ => !st.printing && !st.loopAlive
  | .epause =>
      !st.printing || (decide (st.current_line < st.total_lines) && !st.stop_flag)
  | _ => true

/-- Every event of the trace is admissible at the state it fires in. -/
def okTrace : PState → List Ev → Bool
  | _, [] => true
  | st, e :: es => okEv st e && okTrace (step st e) es

/-- The state invariant underlying claims C2 and C3: the cursor stays in
bounds, a pending stop implies not printing and not paused, and paused states
are mid-job printing states. -/
def Inv (s : PState) : Prop :=
  s.current_line ≤ s.total_lines ∧
  (s.stop_flag = true → s.printing = false ∧ s.paused = false) ∧
  (s.paused = true →
    s.printing = true ∧ s.current_line < s.total_lines ∧ s.stop_flag = false)

/-- The executor's local failure counter is positive only after its own
`reconnect()` ran — and that `reconnect()` has set the stop flag. -/
def RaInv (s : PState) : Prop := 1 ≤ s.ra → s.stop_flag = true

/-- Events that never reset the cursor (everything except load and start). -/
def cursorKept : Ev → Bool
  | .eload _ => false
  | .eloadContent _ => false
  | .estart => false
  | _ => true

/-- Terminating lines of the acknowledgment wait. -/
def isTermLine (s : String) : Bool := hasOkCI s || hasErrCI s

/-- The lines `readline()` hands to lines 141-151 during one wait pass: every
line up to and including the first `ok`/`error` line; an `OSError` or the
timeout cuts the stream. -/
def linesSeen : List ReadEv → List String
  | [] => []
  | .line s :: rest => if isTermLine s then [s] else s :: linesSeen rest
  | .osErr _ :: _ => []

/-- A send script raising one device fault per attempt for `n` attempts, the
last attempt acknowledged. -/
def faultLevels : Nat → List (List ReadEv)
  | 0 => [[.line "ok"]]
  | n + 1 => [.osErr "e"] :: faultLevels n

/-- Reconnect outcomes for `faultLevels`: every reconnect succeeds. -/
def okCos : Nat → List ConnectOutcome
  | 0 => []
  | n + 1 => .handshake "Marlin" :: okCos n

/-- A freshly connected controller. -/
def connState : PState := (connectOp initState (.handshake "Marlin")).2

/-- Connect, load a two-line job, start printing; the first line's send
raises an `OSError` whose message names the USB port, the `send_command`
internal reconnect fails, the `_print_loop` reconnect succeeds; then one more
executor step. -/
def c4Trace : List Ev :=
  [.econnect (.handshake "Marlin"), .eloadContent "G28\nG28", .estart,
   .eiter ⟨[[.osErr "x"]], [.exn "could not open port /dev/ttyUSB0"],
           .handshake "Marlin"⟩,
   .eiter ⟨[], [], .noDevice⟩]

/-- Connect, load a two-line job and start it: a state with a job actively
running. -/
def c5State : PState :=
  run initState
    [.econnect (.handshake "Marlin"), .eloadContent "G1 X0\nG1 X1", .estart]

/-- Connect, load a one-line job, run it to completion (one acknowledged line
and the exit step), then start again: `start_print` resets the cursor but not
the stale progress. -/
def c3Trace : List Ev :=
  [.econnect (.handshake "Marlin"), .eloadContent "G28", .estart,
   .eiter ⟨[[.line "ok"]], [], .noDevice⟩, .eiter ⟨[], [], .noDevice⟩, .estart]

/-- Connect, load a one-line job, start, run the only line to success: the
executor is still alive with the job exhausted. -/
def c2Trace : List Ev :=
  [.econnect (.handshake "Marlin"), .eloadContent "G28", .estart,
   .eiter ⟨[[.line "ok"]], [], .noDevice⟩]

/-- An inert iteration environment (no reads, no reconnect outcomes). -/
def c2Env : IterEnv := ⟨[], [], .noDevice⟩

/-- An iteration environment whose send is acknowledged at once. -/
def envOk : IterEnv := ⟨[[.line "ok"]], [], .noDevice⟩

/-- Connect, load a 100-line job, start, and acknowledge 29 lines: the
program's floating-point progress computation stores 28 where the exact floor
is 29. -/
def floatTrace : List Ev :=
  [.econnect (.handshake "Marlin"), .eload (List.replicate 100 "G28"), .estart]
    ++ List.replicate 29 (.eiter envOk)

/-- Run a one-line job to exhaustion, pause in the window after the final
advance but before the executor observes the exit, then let it exit: `paused`
stays true while `printing` is cleared. -/
def pauseTrace : List Ev :=
  [.econnect (.handshake "Marlin"), .eloadContent "G28", .estart,
   .eiter envOk, .epause, .eiter c2Env]

/-! ### Helper lemmas -/

theorem parseBedOnlyTemp (st : PState) (cs : List Char) :
    parseBed st cs = { st with temp := (parseBed st cs).temp } := by
  unfold parseBed
  repeat' split
  all_goals rfl

theorem parseTempOnlyTemp (st : PState) (line : String) :
    parseTemperature st line =
      { st with temp := (parseTemperature st line).temp } := by
  unfold parseTemperature
  dsimp only
  repeat' split
  all_goals first
    | rfl
    | exact parseBedOnlyTemp _ _

theorem parseBedHot (st : PState) (cs : List Char) :
    (parseBed st cs).temp.hotend = st.temp.hotend ∧
    (parseBed st cs).temp.hotend_target = st.temp.hotend_target := by
  unfold parseBed
  repeat' split
  all_goals simp

theorem procLineOnlyTemp (st : PState) (s : String) :
    procLine st s = { st with temp := (procLine st s).temp } := by
  unfold procLine
  split
  · exact parseTempOnlyTemp st s
  · rfl

theorem waitEvsOnlyTemp (evs : List ReadEv) : ∀ st resp,
    (waitEvs st resp evs).2 = { st with temp := ((waitEvs st resp evs).2).temp } := by
  induction evs with
  | nil => intro st resp; rfl
  | cons e rest ih =>
      intro st resp
      cases e with
      | line s =>
          simp only [waitEvs]
          by_cases h1 : hasOkCI s
          · simpa [h1] using procLineOnlyTemp st s
          · by_cases h2 : hasErrCI s
            · simpa [h1, h2] using procLineOnlyTemp st s
            · simp only [h1, h2, if_neg, Bool.false_eq_true, ite_false]
              rw [ih (procLine st s) (resp ++ s ++ "\n"),
                  procLineOnlyTemp st s]
      | osErr m => rfl

theorem connectFrame (st : PState) (co : ConnectOutcome) :
    (connectOp st co).2.printing = st.printing ∧
    (connectOp st co).2.paused = st.paused ∧
    (connectOp st co).2.stop_flag = st.stop_flag ∧
    (connectOp st co).2.current_line = st.current_line ∧
    (connectOp st co).2.total_lines = st.total_lines ∧
    (connectOp st co).2.gcode_lines = st.gcode_lines ∧
    (connectOp st co).2.progress = st.progress ∧
    (connectOp st co).2.ra = st.ra ∧
    (connectOp st co).2.loopAlive = st.loopAlive ∧
    (connectOp st co).2.temp = st.temp := by
  cases co with
  | noDevice => exact ⟨rfl, rfl, rfl, rfl, rfl, rfl, rfl, rfl, rfl, rfl⟩
  | handshake resp =>
      simp only [connectOp]
      split <;> exact ⟨rfl, rfl, rfl, rfl, rfl, rfl, rfl, rfl, rfl, rfl⟩
  | exn m => exact ⟨rfl, rfl, rfl, rfl, rfl, rfl, rfl, rfl, rfl, rfl⟩

theorem reconFrame (st : PState) (co : ConnectOutcome) :
    (reconnectOp st co).2.current_line = st.current_line ∧
    (reconnectOp st co).2.total_lines = st.total_lines ∧
    (reconnectOp st co).2.gcode_lines = st.gcode_lines ∧
    (reconnectOp st co).2.progress = st.progress ∧
    (reconnectOp st co).2.ra = st.ra ∧
    (reconnectOp st co).2.loopAlive = st.loopAlive ∧
    (reconnectOp st co).2.printing = false ∧
    (reconnectOp st co).2.paused = false ∧
    (reconnectOp st co).2.stop_flag = true := by
  cases co with
  | noDevice => exact ⟨rfl, rfl, rfl, rfl, rfl, rfl, rfl, rfl, rfl⟩
  | handshake resp =>
      simp only [reconnectOp, connectOp, disconnectOp, stopPrint]
      split <;> exact ⟨rfl, rfl, rfl, rfl, rfl, rfl, rfl, rfl, rfl⟩
  | exn m => exact ⟨rfl, rfl, rfl, rfl, rfl, rfl, rfl, rfl, rfl⟩

theorem waitFrame (evs : List ReadEv) (st : PState) (resp : String) :
    (waitEvs st resp evs).2.current_line = st.current_line ∧
    (waitEvs st resp evs).2.total_lines = st.total_lines ∧
    (waitEvs st resp evs).2.gcode_lines = st.gcode_lines ∧
    (waitEvs st resp evs).2.progress = st.progress ∧
    (waitEvs st resp evs).2.ra = st.ra ∧
    (waitEvs st resp evs).2.loopAlive = st.loopAlive ∧
    (waitEvs st resp evs).2.printing = st.printing ∧
    (waitEvs st resp evs).2.paused = st.paused ∧
    (waitEvs st resp evs).2.stop_flag = st.stop_flag ∧
    (waitEvs st resp evs).2.connected = st.connected ∧
    (waitEvs st resp evs).2.hasSerial = st.hasSerial ∧
    (waitEvs st resp evs).2.last_error = st.last_error := by
  rw [waitEvsOnlyTemp]
  exact ⟨rfl, rfl, rfl, rfl, rfl, rfl, rfl, rfl, rfl, rfl, rfl, rfl⟩

theorem sendFrame (levels : List (List ReadEv)) : ∀ (st : PState) (cmd : String)
    (w : Bool) (cos : List ConnectOutcome),
    (sendAux st cmd w levels cos).2.1.current_line = st.current_line ∧
    (sendAux st cmd w levels cos).2.1.total_lines = st.total_lines ∧
    (sendAux st cmd w levels cos).2.1.gcode_lines = st.gcode_lines ∧
    (sendAux st cmd w levels cos).2.1.progress = st.progress ∧
    (sendAux st cmd w levels cos).2.1.ra = st.ra ∧
    (sendAux st cmd w levels cos).2.1.loopAlive = st.loopAlive ∧
    (((sendAux st cmd w levels cos).2.1.printing = st.printing ∧
      (sendAux st cmd w levels cos).2.1.paused = st.paused ∧
      (sendAux st cmd w levels cos).2.1.stop_flag = st.stop_flag) ∨
     ((sendAux st cmd w levels cos).2.1.printing = false ∧
      (sendAux st cmd w levels cos).2.1.paused = false ∧
      (sendAux st cmd w levels cos).2.1.stop_flag = true)) := by
  induction levels with
  | nil =>
      intro st cmd w cos
      simp only [sendAux]
      repeat' split
      all_goals exact ⟨rfl, rfl, rfl, rfl, rfl, rfl, Or.inl ⟨rfl, rfl, rfl⟩⟩
  | cons evs lrest ih =>
      intro st cmd w cos
      simp only [sendAux]
      split
      · exact ⟨rfl, rfl, rfl, rfl, rfl, rfl, Or.inl ⟨rfl, rfl, rfl⟩⟩
      split
      · exact ⟨rfl, rfl, rfl, rfl, rfl, rfl, Or.inl ⟨rfl, rfl, rfl⟩⟩
      split
      · exact ⟨rfl, rfl, rfl, rfl, rfl, rfl, Or.inl ⟨rfl, rfl, rfl⟩⟩
      split
      case _ r st1 heq =>
        have hw := waitFrame evs st ""
        rw [heq] at hw
        exact ⟨hw.1, hw.2.1, hw.2.2.1, hw.2.2.2.1, hw.2.2.2.2.1, hw.2.2.2.2.2.1,
          Or.inl ⟨hw.2.2.2.2.2.2.1, hw.2.2.2.2.2.2.2.1, hw.2.2.2.2.2.2.2.2.1⟩⟩
      case _ r st1 heq =>
        have hw := waitFrame evs st ""
        rw [heq] at hw
        exact ⟨hw.1, hw.2.1, hw.2.2.1, hw.2.2.2.1, hw.2.2.2.2.1, hw.2.2.2.2.2.1,
          Or.inl ⟨hw.2.2.2.2.2.2.1, hw.2.2.2.2.2.2.2.1, hw.2.2.2.2.2.2.2.2.1⟩⟩
      case _ st1 heq =>
        have hw := waitFrame evs st ""
        rw [heq] at hw
        exact ⟨hw.1, hw.2.1, hw.2.2.1, hw.2.2.2.1, hw.2.2.2.2.1, hw.2.2.2.2.2.1,
          Or.inl ⟨hw.2.2.2.2.2.2.1, hw.2.2.2.2.2.2.2.1, hw.2.2.2.2.2.2.2.2.1⟩⟩
      case _ m st1 heq =>
        have hw := waitFrame evs st ""
        rw [heq] at hw
        split
        · -- cos = []: the reconnect with no device fails
          have hr := reconFrame { st1 with last_error := "USB Error: " ++ m } .noDevice
          exact ⟨hr.1.trans hw.1, hr.2.1.trans hw.2.1,
            hr.2.2.1.trans hw.2.2.1, hr.2.2.2.1.trans hw.2.2.2.1,
            hr.2.2.2.2.1.trans hw.2.2.2.2.1,
            hr.2.2.2.2.2.1.trans hw.2.2.2.2.2.1,
            Or.inr ⟨hr.2.2.2.2.2.2.1, hr.2.2.2.2.2.2.2.1, hr.2.2.2.2.2.2.2.2⟩⟩
        case _ co crest =>
          have hr := reconFrame { st1 with last_error := "USB Error: " ++ m } co
          split
          · -- reconnect succeeded: full recursive retry
            have hs := ih (reconnectOp { st1 with last_error := "USB Error: " ++ m } co).2
              cmd w crest
            refine ⟨hs.1.trans (hr.1.trans hw.1),
              hs.2.1.trans (hr.2.1.trans hw.2.1),
              hs.2.2.1.trans (hr.2.2.1.trans hw.2.2.1),
              hs.2.2.2.1.trans (hr.2.2.2.1.trans hw.2.2.2.1),
              hs.2.2.2.2.1.trans (hr.2.2.2.2.1.trans hw.2.2.2.2.1),
              hs.2.2.2.2.2.1.trans (hr.2.2.2.2.2.1.trans hw.2.2.2.2.2.1), ?_⟩
            rcases hs.2.2.2.2.2.2 with hfl | hfl
            · exact Or.inr ⟨hfl.1.trans hr.2.2.2.2.2.2.1,
                hfl.2.1.trans hr.2.2.2.2.2.2.2.1, hfl.2.2.trans hr.2.2.2.2.2.2.2.2⟩
            · exact Or.inr hfl
          · -- reconnect failed
            exact ⟨hr.1.trans hw.1, hr.2.1.trans hw.2.1,
              hr.2.2.1.trans hw.2.2.1, hr.2.2.2.1.trans hw.2.2.2.1,
              hr.2.2.2.2.1.trans hw.2.2.2.2.1,
              hr.2.2.2.2.2.1.trans hw.2.2.2.2.2.1,
              Or.inr ⟨hr.2.2.2.2.2.2.1, hr.2.2.2.2.2.2.2.1, hr.2.2.2.2.2.2.2.2⟩⟩

theorem exitLoopRa (st : PState) (h : RaInv st) : RaInv (exitLoop st) := by
  simp only [exitLoop]
  split
  case isTrue hc => exact fun _ => hc
  case isFalse hc => exact fun h1 => absurd (h h1) hc

theorem handleUsbRa (co : ConnectOutcome) (st2 : PState) (h2 : st2.ra = 1) :
    RaInv (handleUsb co st2) := by
  unfold handleUsb
  split
  case isTrue h5 =>
    exfalso
    rw [h2] at h5
    exact absurd h5 (by decide)
  case isFalse h5 =>
  split
  case isTrue hrc => exact fun _ => (reconFrame st2 co).2.2.2.2.2.2.2.2
  case isFalse hrc => exact fun _ => (reconFrame st2 co).2.2.2.2.2.2.2.2

theorem handleSendRa (co : ConnectOutcome) (ok : Bool) (st1 : PState)
    (hra : st1.ra = 0) : RaInv (handleSend co ok st1) := by
  unfold handleSend
  split
  case isTrue hok =>
    exact fun h1 => absurd h1 (Nat.not_succ_le_zero 0)
  case isFalse hok =>
  split
  case isTrue husb =>
    refine handleUsbRa co _ ?_
    show st1.ra + 1 = 1
    rw [hra]
  case isFalse husb =>
    intro h1
    rw [show (advanceLine st1).ra = st1.ra from rfl, hra] at h1
    exact absurd h1 (by decide)

theorem printIterRa (st : PState) (env : IterEnv) (h : RaInv st) :
    RaInv (printIter st env) := by
  unfold printIter
  split
  case isFalse hcond => exact exitLoopRa st h
  case isTrue hcond =>
  have hstop : st.stop_flag = false := by
    have h2 := hcond
    simp only [Bool.and_eq_true] at h2
    simpa using h2.2
  have hra0 : st.ra = 0 := by
    by_contra hne
    have h1 : 1 ≤ st.ra := Nat.one_le_iff_ne_zero.mpr hne
    rw [h h1] at hstop
    exact Bool.noConfusion hstop
  split
  case isTrue hsf => exact exitLoopRa st h
  case isFalse hsf =>
  split
  case isTrue hp => exact h
  case isFalse hp =>
  split
  case isTrue hcmd => exact fun h1 => h h1
  case isFalse hcmd =>
  have hs := sendFrame env.sendLevels st
    (pyStrip (beforeSemi (st.gcode_lines.getD st.current_line ""))) true env.sendCos
  exact handleSendRa env.loopCo _ _ (hs.2.2.2.2.1.trans hra0)

theorem raStep (st : PState) (e : Ev) (h : RaInv st) : RaInv (step st e) := by
  cases e with
  | econnect co =>
      intro h1
      have hc := connectFrame st co
      have hra : (step st (.econnect co)).ra = st.ra := hc.2.2.2.2.2.2.2.1
      have hsf : (step st (.econnect co)).stop_flag = st.stop_flag := hc.2.2.1
      rw [hra] at h1
      rw [hsf]
      exact h h1
  | edisconnect => exact fun _ => rfl
  | eload ls => exact fun h1 => h h1
  | eloadContent content => exact fun h1 => h h1
  | estart =>
      simp only [step, startPrint]
      split
      · exact fun h1 => h h1
      split
      · exact fun h1 => h h1
      split
      · exact fun h1 => h h1
      · exact fun h1 => absurd h1 (Nat.not_succ_le_zero 0)
  | epause =>
      simp only [step, pausePrint]
      split
      · exact fun h1 => h h1
      · exact h
  | eresume =>
      simp only [step, resumePrint]
      split
      · exact fun h1 => h h1
      · exact h
  | estop => exact fun _ => rfl
  | esend cmd w levels cos =>
      intro h1
      have hs := sendFrame levels st cmd w cos
      have hra : (step st (.esend cmd w levels cos)).ra = st.ra := hs.2.2.2.2.1
      rw [hra] at h1
      rcases hs.2.2.2.2.2.2 with hfl | hfl
      · have hsf : (step st (.esend cmd w levels cos)).stop_flag = st.stop_flag :=
          hfl.2.2
        rw [hsf]
        exact h h1
      · exact hfl.2.2
  | eiter env =>
      simp only [step]
      split
      · exact printIterRa st env h
      · exact h

theorem raRun (evs : List Ev) : ∀ st, RaInv st → RaInv (run st evs) := by
  induction evs with
  | nil => exact fun st h => h
  | cons e rest ih => exact fun st h => ih (step st e) (raStep st e h)

theorem handleUsbAlive (co : ConnectOutcome) (st2 : PState) (h2 : st2.ra = 1) :
    (handleUsb co st2).loopAlive = st2.loopAlive := by
  unfold handleUsb
  split
  case isTrue h5 => exact absurd (h2 ▸ h5) (by decide)
  case isFalse h5 =>
  split
  case isTrue hrc => exact (reconFrame st2 co).2.2.2.2.2.1
  case isFalse hrc => exact (reconFrame st2 co).2.2.2.2.2.1

theorem handleSendAlive (co : ConnectOutcome) (ok : Bool) (st1 : PState)
    (hra : st1.ra = 0) : (handleSend co ok st1).loopAlive = st1.loopAlive := by
  unfold handleSend
  split
  case isTrue hok => rfl
  case isFalse hok =>
  split
  case isTrue husb =>
    exact handleUsbAlive co _ (by show st1.ra + 1 = 1; rw [hra])
  case isFalse husb => rfl

theorem printIterExit (st : PState) (env : IterEnv) (h : RaInv st)
    (hl : st.loopAlive = true) :
    (printIter st env).loopAlive = false →
    (printIter st env).printing = false ∧
    (st.stop_flag = false →
      st.total_lines ≤ st.current_line ∧ (printIter st env).progress = 100) ∧
    (st.stop_flag = true → (printIter st env).progress = st.progress) := by
  unfold printIter
  split
  case isTrue hcond =>
    have hstop : st.stop_flag = false := by
      have h2 := hcond
      simp only [Bool.and_eq_true] at h2
      simpa using h2.2
    have hra0 : st.ra = 0 := by
      by_contra hne
      have h1 : 1 ≤ st.ra := Nat.one_le_iff_ne_zero.mpr hne
      rw [h h1] at hstop
      exact Bool.noConfusion hstop
    split
    case isTrue hsf => exact fun _ => by simp [hstop] at hsf
    case isFalse hsf =>
    split
    case isTrue hp => exact fun hx => absurd (hx ▸ hl) (by decide)
    case isFalse hp =>
    split
    case isTrue hcmd =>
      intro hx
      rw [show (advanceLine st).loopAlive = st.loopAlive from rfl, hl] at hx
      exact Bool.noConfusion hx
    case isFalse hcmd =>
      intro hx
      have hs := sendFrame env.sendLevels st
        (pyStrip (beforeSemi (st.gcode_lines.getD st.current_line ""))) true env.sendCos
      rw [handleSendAlive env.loopCo _ _ (hs.2.2.2.2.1.trans hra0),
          hs.2.2.2.2.2.1, hl] at hx
      exact Bool.noConfusion hx
  case isFalse hcond =>
    intro hx
    unfold exitLoop
    split
    case isTrue hc =>
      refine ⟨rfl, ?_, fun _ => rfl⟩
      intro hsf0
      have : st.stop_flag = true := hc
      rw [hsf0] at this
      exact Bool.noConfusion this
    case isFalse hc =>
      refine ⟨rfl, ?_, ?_⟩
      · intro hsf0
        have hnl : ¬(st.current_line < st.total_lines) := by
          intro hlt
          exact hcond (by simp [hlt, hsf0])
        exact ⟨Nat.le_of_not_lt hnl, rfl⟩
      · intro hsf1
        exact absurd hsf1 hc

/-! ### C2 — loop-exit progress semantics -/

/-- Claim C2: when the executor loop exits, `printing` is cleared, and
progress is forced to 100 exactly when the stop flag is unset at exit — which
happens only when the loop exhausted all lines (`total_lines ≤ current_line`
at exit), because an explicit stop raises the flag and the fatal
reconnection-cap abort is only reachable when the flag is already raised (the
counter is positive only after a `reconnect()` ran, and that `reconnect()`
sets the flag); on a stop- or abort-exit progress is left unchanged. -/
theorem printLoopExitProgress : ∀ (evs : List Ev) (env : IterEnv),
    (run initState evs).loopAlive = true →
    (step (run initState evs) (.eiter env)).loopAlive = false →
    (step (run initState evs) (.eiter env)).printing = false ∧
    ((run initState evs).stop_flag = false →
      (run initState evs).total_lines ≤ (run initState evs).current_line ∧
      (step (run initState evs) (.eiter env)).progress = 100) ∧
    ((run initState evs).stop_flag = true →
      (step (run initState evs) (.eiter env)).progress
        = (run initState evs).progress) := by
  intro evs env hl hx
  have hr : RaInv (run initState evs) :=
    raRun evs initState (fun h1 => absurd h1 (by decide))
  have hst : step (run initState evs) (.eiter env)
      = printIter (run initState evs) env := by
    simp [step, hl]
  rw [hst] at hx ⊢
  exact printIterExit _ env hr hl hx

/-- Witness for C2: a one-line job runs to completion; the next executor step
exits the loop with progress 100 and the job exhausted. -/
theorem printLoopExitProgressWitness :
    (run initState c2Trace).loopAlive = true ∧
    (step (run initState c2Trace) (.eiter c2Env)).loopAlive = false ∧
    (step (run initState c2Trace) (.eiter c2Env)).printing = false ∧
    (run initState c2Trace).total_lines ≤ (run initState c2Trace).current_line ∧
    (step (run initState c2Trace) (.eiter c2Env)).progress = 100 := by
  have h := printLoopExitProgress c2Trace c2Env (by decide) (by decide)
  exact ⟨by decide, by decide, h.1, (h.2.1 (by decide)).1, (h.2.1 (by decide)).2⟩

/-! ### C9 — the Telemetry Parser -/

/-- Claim C9: on `"T:205.00 /210.00 B:59.80 /60.00"` the parser sets
hotend = 205.00 with target 210.00 and bed = 59.80 with target 60.00; a field
without a `/` suffix updates the current value and leaves the previous target
unchanged; a line with no T/B fields leaves all four values unchanged; the
parser is total (the bare `except` swallows every error) and a malformed
numeral yields no update for that field. -/
theorem telemetryParserSpec :
    (∀ st, parseTemperature st "T:205.00 /210.00 B:59.80 /60.00"
       = { st with temp := ⟨⟨598, 1⟩, ⟨60, 0⟩, ⟨205, 0⟩, ⟨210, 0⟩⟩ }) ∧
    (∀ st line g v, searchTwo tLab line.data = none →
       searchOne tLab line.data = some g → floatOf g = some v →
       (parseTemperature st line).temp.hotend = v ∧
       (parseTemperature st line).temp.hotend_target = st.temp.hotend_target) ∧
    (∀ st, parseTemperature st "B:59.80"
       = { st with temp := { st.temp with bed := ⟨598, 1⟩ } }) ∧
    (∀ st line, searchTwo tLab line.data = none → searchOne tLab line.data = none →
       searchTwo bLab line.data = none → searchOne bLab line.data = none →
       parseTemperature st line = st) ∧
    (∀ st line g1 g2, searchTwo tLab line.data = some (g1, g2) →
       floatOf g1 = none → parseTemperature st line = st) ∧
    (∀ st line g1 g2 v1, searchTwo tLab line.data = some (g1, g2) →
       floatOf g1 = some v1 → floatOf g2 = none →
       parseTemperature st line
         = { st with temp := { st.temp with hotend := v1 } }) := by
  refine ⟨fun st => rfl, ?_, fun st => rfl, ?_, ?_, ?_⟩
  · intro st line g v h2 h1 hf
    simp only [parseTemperature, h2, h1, hf]
    exact ⟨(parseBedHot _ _).1, (parseBedHot _ _).2⟩
  · intro st line h1 h2 h3 h4
    simp only [parseTemperature, parseBed, h1, h2, h3, h4]
  · intro st line g1 g2 h hf
    simp only [parseTemperature, h, hf]
  · intro st line g1 g2 v1 h hf1 hf2
    simp only [parseTemperature, h, hf1, hf2]

/-- Witness for C9 at concrete lines: `"T:199.5"` (no `/` suffix), `"ok"`
(no T/B fields), `"T:1.2.3/4"` (malformed current) and `"T:200.0/1.2.3"`
(malformed target). -/
theorem telemetryParserSpecWitness :
    ((parseTemperature initState "T:199.5").temp.hotend = ⟨1995, 1⟩ ∧
     (parseTemperature initState "T:199.5").temp.hotend_target
       = initState.temp.hotend_target) ∧
    parseTemperature initState "ok" = initState ∧
    parseTemperature initState "T:1.2.3/4" = initState ∧
    parseTemperature initState "T:200.0/1.2.3"
      = { initState with temp := { initState.temp with hotend := ⟨200, 0⟩ } } :=
  ⟨telemetryParserSpec.2.1 initState "T:199.5" "199.5".data ⟨1995, 1⟩
      (by decide) (by decide) (by decide),
   telemetryParserSpec.2.2.2.1 initState "ok"
      (by decide) (by decide) (by decide) (by decide),
   telemetryParserSpec.2.2.2.2.1 initState "T:1.2.3/4" "1.2.3".data "4".data
      (by decide) (by decide),
   telemetryParserSpec.2.2.2.2.2 initState "T:200.0/1.2.3"
      "200.0".data "1.2.3".data ⟨200, 0⟩ (by decide) (by decide) (by decide)⟩

/-! ### C10 — stop_print -/

/-- Claim C10: `stop_print` synchronously sets the stop flag, clears paused
and printing (and nothing else), so a status snapshot taken right after it
already reports not-printing and not-paused, and the next executor step can
only observe the flags and exit.  The operation is a total state function
taking no device input: it cannot raise and does not wait on the executor. -/
theorem stopPrintImmediate :
    (∀ s, stopPrint s =
      { s with stop_flag := true, paused := false, printing := false }) ∧
    (∀ s, (statusOf (stopPrint s)).printing = false ∧
      (statusOf (stopPrint s)).paused = false ∧
      (stopPrint s).stop_flag = true) ∧
    (∀ s env, (step (stopPrint s) (.eiter env)).loopAlive = false ∧
      (step (stopPrint s) (.eiter env)).printing = false) := by
  refine ⟨fun s => rfl, fun s => ⟨rfl, rfl, rfl⟩, fun s env => ?_⟩
  simp only [step]
  cases hv : s.loopAlive with
  | false => simp [stopPrint, hv]
  | true => simp [printIter, exitLoop, stopPrint, hv]

/-! ### C1 — send_command retry is recursive, not bounded -/

/-- Claim C1 (code bug): the claim bounds `send_command` to at most one
reconnect and one retry per call, but line 158 retries by full recursion:
with two device faults in one call the model performs two reconnects, with
five faults five — one per recursion level, unbounded in the script length. -/
theorem sendCommandUnboundedReconnect :
    (sendAux connState "M105" true (faultLevels 2) (okCos 2)).2.2 = 2 ∧
    (sendAux connState "M105" true (faultLevels 2) (okCos 2)).1.1 = true ∧
    (sendAux connState "M105" true (faultLevels 5) (okCos 5)).2.2 = 5 := by
  decide

/-! ### C4 — the loop's reconnect kills the job -/

/-- Claim C4 (code bug): the loop's `reconnect()` goes through `disconnect()`
→ `stop_print()`, which sets the stop flag.  After the very first
connection-class failure (counter = 1, far below the cap of 5) whose
reconnect succeeds, the loop exits at the next condition check: the job is
dead, the failing line 0 of 2 is never retried, and the cap-5
`Too many connection errors` abort is unreachable (`last_error` is even
cleared by the successful reconnect). -/
theorem reconnectAbortsJob :
    (run initState c4Trace).loopAlive = false ∧
    (run initState c4Trace).printing = false ∧
    (run initState c4Trace).current_line = 0 ∧
    (run initState c4Trace).total_lines = 2 ∧
    (run initState c4Trace).stop_flag = true ∧
    (run initState c4Trace).ra = 1 ∧
    (run initState c4Trace).connected = true ∧
    (run initState c4Trace).last_error = "" := by
  decide

/-! ### C5 — loading while printing -/

/-- Claim C5 (code bug): with a job actively running (`printing = true`),
`load_gcode_content` succeeds and replaces the job's lines, total and cursor
— there is no guard; the claim (and §3 of the spec) requires it to fail and
leave them unchanged. -/
theorem loadWhilePrintingSucceeds :
    c5State.printing = true ∧ c5State.gcode_lines = ["G1 X0", "G1 X1"] ∧
    c5State.total_lines = 2 ∧
    (loadGcodeContent c5State "G28").1 = true ∧
    (loadGcodeContent c5State "G28").2.gcode_lines = ["G28"] ∧
    (loadGcodeContent c5State "G28").2.total_lines = 1 ∧
    (loadGcodeContent c5State "G28").2.current_line = 0 ∧
    (loadGcodeContent c5State "G28").2.printing = true := by
  decide

/-! ### C6 — connect -/

/-- Counterexample to C6: a handshake failure does not leave the controller
disconnected in general — calling `connect` with an unrecognized response on
an already-connected controller returns failure yet `connected` stays true
(the failing branch at lines 94-96 never clears it). -/
theorem connectFailureStaysConnected :
    connState.connected = true ∧
    (connectOp connState (.handshake "garbage")).1 = false ∧
    (connectOp connState (.handshake "garbage")).2.connected = true := by
  decide

/-- Claim C6 as amended: `connect` succeeds exactly when the handshake
response contains the firmware signature `Marlin` or an `ok` token; on
handshake failure it returns failure, sets `last_error`, and leaves the
`connected` flag unchanged (hence a previously-disconnected controller stays
disconnected); on an exception it returns failure and clears `connected`; on
success it sets `connected`, clears `last_error` and starts the Temperature
Monitor. -/
theorem connectAmended :
    (∀ st resp, (connectOp st (.handshake resp)).1
        = (hasMarlin resp || hasOkCI resp)) ∧
    (∀ st resp, (hasMarlin resp || hasOkCI resp) = true →
       connectOp st (.handshake resp)
         = (true,
            { st with
                hasSerial := true, connected := true,
                last_error := "", tempMon := true })) ∧
    (∀ st resp, (hasMarlin resp || hasOkCI resp) = false →
       connectOp st (.handshake resp)
         = (false,
            { st with
                hasSerial := true,
                last_error := "Printer not responding" })) ∧
    (∀ st msg, connectOp st (.exn msg)
       = (false, { st with last_error := msg, connected := false })) ∧
    (∀ st, connectOp st .noDevice
       = (false,
          { st with
              last_error := "No printer found. Check USB connection." })) := by
  refine ⟨?_, ?_, ?_, fun st msg => rfl, fun st => rfl⟩
  · intro st resp
    simp only [connectOp]
    by_cases h : (hasMarlin resp || hasOkCI resp) = true <;> simp [h]
  · intro st resp h
    simp [connectOp, h]
  · intro st resp h
    simp [connectOp, h]

/-- Witness for C6 at a recognized and an unrecognized handshake response. -/
theorem connectAmendedWitness :
    connectOp initState (.handshake "Marlin")
      = (true,
         { initState with
             hasSerial := true, connected := true,
             last_error := "", tempMon := true }) ∧
    connectOp initState (.handshake "garbage")
      = (false,
         { initState with
             hasSerial := true,
             last_error := "Printer not responding" }) :=
  ⟨connectAmended.2.1 initState "Marlin" (by decide),
   connectAmended.2.2.1 initState "garbage" (by decide)⟩

/-! ### C7 — start_print on a running job -/

/-- Counterexample to C7: `start_print` on a running job does not leave the
state unchanged — it overwrites `last_error` with `"Already printing"`. -/
theorem startPrintMutatesLastError :
    c5State.printing = true ∧ c5State.last_error = "" ∧
    (startPrint c5State).1 = false ∧
    (startPrint c5State).2.last_error = "Already printing" ∧
    (startPrint c5State).2 ≠ c5State := by
  decide

/-- Claim C7 as amended: calling `start_print` while connected with a
non-empty job already running fails, records the failure by setting
`last_error := "Already printing"`, and changes nothing else — in particular
cursor, progress, flags are untouched and no executor task is launched
(`loopAlive` unchanged). -/
theorem startPrintAmended : ∀ s, s.connected = true →
    s.gcode_lines.isEmpty = false → s.printing = true →
    startPrint s = (false, { s with last_error := "Already printing" }) := by
  intro s h1 h2 h3
  simp [startPrint, h1, h2, h3]

/-- Witness for C7: the amended statement at the concrete running state. -/
theorem startPrintAmendedWitness :
    startPrint c5State
      = (false, { c5State with last_error := "Already printing" }) :=
  startPrintAmended c5State (by decide) (by decide) (by decide)

/-! ### C8 — which lines reach the Telemetry Parser -/

/-- Counterexample to C8: a response line carrying only a bed-temperature
field (`"B:59.80 /60.00"`) read during the acknowledgment wait is *not* fed
to the Telemetry Parser — the guard at lines 145-146 requires a `T:` — so the
shared temperature state stays unchanged, although the parser applied to that
line would set bed = 59.80. -/
theorem bedOnlyLineNotParsed :
    (sendAux connState "M105" true [[.line "B:59.80 /60.00", .line "ok"]] []).1.1
      = true ∧
    (sendAux connState "M105" true [[.line "B:59.80 /60.00", .line "ok"]] []).2.1.temp
      = connState.temp ∧
    (parseTemperature connState "B:59.80 /60.00").temp.bed = ⟨598, 1⟩ := by
  decide

/-- Claim C8 as amended: during the acknowledgment wait, a read line is fed
to the Telemetry Parser iff it starts with `T:` or contains `" T:"` — this is
independent of whether the line is an acknowledgment, an error or neither
(every read line up to and including the terminating one passes through the
guard); lines failing the guard are never parsed even if they carry
temperature fields. -/
theorem ackWaitParsingAmended :
    (∀ st s, lineGuard s = true → procLine st s = parseTemperature st s) ∧
    (∀ st s, lineGuard s = false → procLine st s = st) ∧
    (∀ st resp evs, (waitEvs st resp evs).2 = (linesSeen evs).foldl procLine st) := by
  refine ⟨fun st s h => by simp [procLine, h],
          fun st s h => by simp [procLine, h], ?_⟩
  intro st resp evs
  induction evs generalizing st resp with
  | nil => rfl
  | cons e rest ih =>
      cases e with
      | line s =>
          simp only [waitEvs, linesSeen, isTermLine]
          by_cases h1 : hasOkCI s
          · simp [h1]
          · by_cases h2 : hasErrCI s
            · simp [h1, h2]
            · simp [h1, h2, ih]
      | osErr m => rfl

/-- Witness for C8: a `T:`-guarded ok line is parsed, a bed-only line is not,
and a concrete two-line wait folds the guard over exactly the read lines. -/
theorem ackWaitParsingAmendedWitness :
    procLine initState "T:1.0 ok" = parseTemperature initState "T:1.0 ok" ∧
    procLine initState "B:59.80 /60.00" = initState ∧
    (waitEvs initState "" [.line "B:1.0", .line "ok"]).2
      = (linesSeen [.line "B:1.0", .line "ok"]).foldl procLine initState :=
  ⟨ackWaitParsingAmended.1 initState "T:1.0 ok" (by decide),
   ackWaitParsingAmended.2.1 initState "B:59.80 /60.00" (by decide),
   ackWaitParsingAmended.2.2 initState "" [.line "B:1.0", .line "ok"]⟩

/-! ### C3 — state invariants -/

theorem boolFF {b : Bool} {C : Prop} (h1 : b = true) (h2 : b = false) : C := by
  rw [h2] at h1
  exact Bool.noConfusion h1

theorem exitCur (x : PState) : (exitLoop x).current_line = x.current_line := by
  unfold exitLoop
  split <;> rfl

theorem advanceProg (x : PState) :
    (advanceLine x).progress
      = pyProgress (advanceLine x).current_line (advanceLine x).total_lines := rfl

theorem handleUsbInv (co : ConnectOutcome) (st2 : PState)
    (hcur : st2.current_line < st2.total_lines) (hpau : st2.paused = false)
    (_hsp : st2.stop_flag = true → st2.printing = false) :
    Inv (handleUsb co st2) := by
  unfold handleUsb
  split
  case isTrue h5 =>
    unfold exitLoop
    split
    case isTrue hc =>
      exact ⟨Nat.le_of_lt hcur, fun _ => ⟨rfl, hpau⟩, fun hp1 => boolFF hp1 hpau⟩
    case isFalse hc =>
      exact ⟨Nat.le_of_lt hcur, fun _ => ⟨rfl, hpau⟩, fun hp1 => boolFF hp1 hpau⟩
  case isFalse h5 =>
  have hr := reconFrame st2 co
  split
  case isTrue hrc =>
    refine ⟨?_, fun _ => ⟨hr.2.2.2.2.2.2.1, hr.2.2.2.2.2.2.2.1⟩,
      fun hp1 => boolFF hp1 hr.2.2.2.2.2.2.2.1⟩
    rw [hr.1, hr.2.1]
    exact Nat.le_of_lt hcur
  case isFalse hrc =>
    refine ⟨?_, fun _ => ⟨hr.2.2.2.2.2.2.1, hr.2.2.2.2.2.2.2.1⟩,
      fun hp1 => boolFF hp1 hr.2.2.2.2.2.2.2.1⟩
    have e1 : (advanceLine (reconnectOp st2 co).2).current_line
        = (reconnectOp st2 co).2.current_line + 1 := rfl
    have e2 : (advanceLine (reconnectOp st2 co).2).total_lines
        = (reconnectOp st2 co).2.total_lines := rfl
    rw [e1, e2, hr.1, hr.2.1]
    exact hcur

theorem handleSendInv (co : ConnectOutcome) (ok : Bool) (st1 : PState)
    (hcur : st1.current_line < st1.total_lines) (hpau : st1.paused = false)
    (hsp : st1.stop_flag = true → st1.printing = false) :
    Inv (handleSend co ok st1) := by
  unfold handleSend
  split
  case isTrue hok =>
    exact ⟨hcur, fun hsf => ⟨hsp hsf, hpau⟩, fun hp1 => boolFF hp1 hpau⟩
  case isFalse hok =>
  split
  case isTrue husb => exact handleUsbInv co _ hcur hpau hsp
  case isFalse husb =>
    exact ⟨hcur, fun hsf => ⟨hsp hsf, hpau⟩, fun hp1 => boolFF hp1 hpau⟩

theorem printIterInv (st : PState) (env : IterEnv) (h : Inv st) :
    Inv (printIter st env) := by
  unfold printIter
  split
  case isFalse hcond =>
    unfold exitLoop
    split
    case isTrue hc =>
      exact ⟨h.1, fun _ => ⟨rfl, (h.2.1 hc).2⟩, fun hp1 => boolFF hp1 (h.2.1 hc).2⟩
    case isFalse hc =>
      refine ⟨h.1, fun hsf => absurd hsf hc, ?_⟩
      intro hp1
      have hC := h.2.2 hp1
      exact absurd (by simp [hC.2.1, hC.2.2] : (decide
        (st.current_line < st.total_lines) && !st.stop_flag) = true) hcond
  case isTrue hcond =>
  have hstop : st.stop_flag = false := by
    have h2 := hcond
    simp only [Bool.and_eq_true] at h2
    simpa using h2.2
  have hlt : st.current_line < st.total_lines := by
    have h2 := hcond
    simp only [Bool.and_eq_true] at h2
    exact of_decide_eq_true h2.1
  split
  case isTrue hsf => exact absurd hsf (by simp [hstop])
  case isFalse hsf =>
  split
  case isTrue hp => exact h
  case isFalse hp =>
  have hpau : st.paused = false := by
    revert hp
    cases st.paused <;> simp
  split
  case isTrue hcmd =>
    exact ⟨hlt, fun hsf => boolFF hsf hstop, fun hp1 => boolFF hp1 hpau⟩
  case isFalse hcmd =>
  have hs := sendFrame env.sendLevels st
    (pyStrip (beforeSemi (st.gcode_lines.getD st.current_line ""))) true env.sendCos
  apply handleSendInv
  · rw [hs.1, hs.2.1]
    exact hlt
  · rcases hs.2.2.2.2.2.2 with hfl | hfl
    · rw [hfl.2.1]
      exact hpau
    · exact hfl.2.1
  · intro hsf1
    rcases hs.2.2.2.2.2.2 with hfl | hfl
    · rw [hfl.2.2] at hsf1
      exact boolFF hsf1 hstop
    · exact hfl.1

theorem invStep (st : PState) (e : Ev) (h : Inv st) (hok : okEv st e = true) :
    Inv (step st e) := by
  cases e with
  | econnect co =>
      simp only [step]
      have hc := connectFrame st co
      refine ⟨?_, ?_, ?_⟩
      · rw [hc.2.2.2.1, hc.2.2.2.2.1]
        exact h.1
      · intro hsf
        rw [hc.2.2.1] at hsf
        exact ⟨hc.1.trans (h.2.1 hsf).1, hc.2.1.trans (h.2.1 hsf).2⟩
      · intro hp1
        rw [hc.2.1] at hp1
        refine ⟨hc.1.trans (h.2.2 hp1).1, ?_, hc.2.2.1.trans (h.2.2 hp1).2.2⟩
        rw [hc.2.2.2.1, hc.2.2.2.2.1]
        exact (h.2.2 hp1).2.1
  | edisconnect =>
      exact ⟨h.1, fun _ => ⟨rfl, rfl⟩, fun hp1 => Bool.noConfusion hp1⟩
  | eload ls =>
      simp only [okEv, Bool.and_eq_true] at hok
      have hnp : st.printing = false := by simpa using hok.1
      refine ⟨Nat.zero_le _, fun hsf => h.2.1 hsf, ?_⟩
      intro hp1
      exact boolFF (h.2.2 hp1).1 hnp
  | eloadContent content =>
      simp only [okEv, Bool.and_eq_true] at hok
      have hnp : st.printing = false := by simpa using hok.1
      refine ⟨Nat.zero_le _, fun hsf => h.2.1 hsf, ?_⟩
      intro hp1
      exact boolFF (h.2.2 hp1).1 hnp
  | estart =>
      simp only [step, startPrint]
      split
      · exact h
      split
      · exact h
      split
      · exact h
      · exact ⟨Nat.zero_le _, fun hsf => Bool.noConfusion hsf,
          fun hp1 => Bool.noConfusion hp1⟩
  | epause =>
      simp only [step, pausePrint]
      split
      case isTrue hpr =>
        have hok2 := hok
        simp only [okEv, hpr, Bool.not_true, Bool.false_or,
          Bool.and_eq_true] at hok2
        have hlt : st.current_line < st.total_lines := of_decide_eq_true hok2.1
        have hstop0 : st.stop_flag = false := by simpa using hok2.2
        exact ⟨h.1, fun hsf => boolFF hsf hstop0, fun _ => ⟨hpr, hlt, hstop0⟩⟩
      case isFalse hpr => exact h
  | eresume =>
      simp only [step, resumePrint]
      split
      · exact ⟨h.1, fun hsf => ⟨(h.2.1 hsf).1, rfl⟩,
          fun hp1 => Bool.noConfusion hp1⟩
      · exact h
  | estop =>
      exact ⟨h.1, fun _ => ⟨rfl, rfl⟩, fun hp1 => Bool.noConfusion hp1⟩
  | esend cmd w levels cos =>
      simp only [step]
      have hs := sendFrame levels st cmd w cos
      refine ⟨?_, ?_, ?_⟩
      · rw [hs.1, hs.2.1]
        exact h.1
      · intro hsf
        rcases hs.2.2.2.2.2.2 with hfl | hfl
        · rw [hfl.2.2] at hsf
          exact ⟨hfl.1.trans (h.2.1 hsf).1, hfl.2.1.trans (h.2.1 hsf).2⟩
        · exact ⟨hfl.1, hfl.2.1⟩
      · intro hp1
        rcases hs.2.2.2.2.2.2 with hfl | hfl
        · rw [hfl.2.1] at hp1
          refine ⟨hfl.1.trans (h.2.2 hp1).1, ?_, hfl.2.2.trans (h.2.2 hp1).2.2⟩
          rw [hs.1, hs.2.1]
          exact (h.2.2 hp1).2.1
        · exact boolFF hp1 hfl.2.1
  | eiter env =>
      simp only [step]
      split
      · exact printIterInv st env h
      · exact h

theorem invRun (evs : List Ev) : ∀ st, Inv st → okTrace st evs = true →
    Inv (run st evs) := by
  induction evs with
  | nil => exact fun st h _ => h
  | cons e rest ih =>
      intro st h hok
      simp only [okTrace, Bool.and_eq_true] at hok
      exact ih (step st e) (invStep st e h hok.1) hok.2

theorem handleSendCur (co : ConnectOutcome) (ok : Bool) (st1 : PState) :
    (handleSend co ok st1).current_line = st1.current_line ∨
    (handleSend co ok st1).current_line = st1.current_line + 1 := by
  unfold handleSend handleUsb
  split
  case isTrue hok => exact Or.inr rfl
  case isFalse hok =>
  split
  case isTrue husb =>
    split
    case isTrue h5 => exact Or.inl ((exitCur _).trans rfl)
    case isFalse h5 =>
    split
    case isTrue hrc => exact Or.inl ((reconFrame _ co).1.trans rfl)
    case isFalse hrc =>
      exact Or.inr (congrArg (fun n => n + 1) ((reconFrame _ co).1.trans rfl))
  case isFalse husb => exact Or.inr rfl

theorem handleSendProg (co : ConnectOutcome) (ok : Bool) (st1 : PState) :
    (handleSend co ok st1).current_line = st1.current_line ∨
    (handleSend co ok st1).progress
      = pyProgress (handleSend co ok st1).current_line
          (handleSend co ok st1).total_lines := by
  unfold handleSend handleUsb
  split
  case isTrue hok => exact Or.inr (advanceProg _)
  case isFalse hok =>
  split
  case isTrue husb =>
    split
    case isTrue h5 => exact Or.inl ((exitCur _).trans rfl)
    case isFalse h5 =>
    split
    case isTrue hrc => exact Or.inl ((reconFrame _ co).1.trans rfl)
    case isFalse hrc => exact Or.inr (advanceProg _)
  case isFalse husb => exact Or.inr (advanceProg _)

theorem printIterMono (st : PState) (env : IterEnv) :
    st.current_line ≤ (printIter st env).current_line := by
  unfold printIter
  split
  case isFalse hcond => exact le_of_eq (exitCur st).symm
  case isTrue hcond =>
  split
  case isTrue hsf => exact le_of_eq (exitCur st).symm
  case isFalse hsf =>
  split
  case isTrue hp => exact Nat.le_refl _
  case isFalse hp =>
  split
  case isTrue hcmd => exact Nat.le_succ _
  case isFalse hcmd =>
  have hs := sendFrame env.sendLevels st
    (pyStrip (beforeSemi (st.gcode_lines.getD st.current_line ""))) true env.sendCos
  rcases handleSendCur env.loopCo
      (sendAux st (pyStrip (beforeSemi (st.gcode_lines.getD st.current_line "")))
        true env.sendLevels env.sendCos).1.1
      (sendAux st (pyStrip (beforeSemi (st.gcode_lines.getD st.current_line "")))
        true env.sendLevels env.sendCos).2.1 with hc | hc
  · rw [hc, hs.1]
  · rw [hc, hs.1]
    exact Nat.le_succ _

theorem stepCursorMono (st : PState) (e : Ev) (hk : cursorKept e = true) :
    st.current_line ≤ (step st e).current_line := by
  cases e with
  | econnect co => exact le_of_eq (connectFrame st co).2.2.2.1.symm
  | edisconnect => exact Nat.le_refl _
  | eload ls => exact Bool.noConfusion hk
  | eloadContent content => exact Bool.noConfusion hk
  | estart => exact Bool.noConfusion hk
  | epause =>
      simp only [step, pausePrint]
      split <;> exact Nat.le_refl _
  | eresume =>
      simp only [step, resumePrint]
      split <;> exact Nat.le_refl _
  | estop => exact Nat.le_refl _
  | esend cmd w levels cos => exact le_of_eq (sendFrame levels st cmd w cos).1.symm
  | eiter env =>
      simp only [step]
      split
      · exact printIterMono st env
      · exact Nat.le_refl _

theorem iterProgress (st : PState) (env : IterEnv) :
    (printIter st env).current_line = st.current_line + 1 →
    (printIter st env).progress
      = pyProgress (printIter st env).current_line
          (printIter st env).total_lines := by
  unfold printIter
  split
  case isFalse hcond =>
    intro hcl
    rw [exitCur] at hcl
    omega
  case isTrue hcond =>
  split
  case isTrue hsf =>
    intro hcl
    rw [exitCur] at hcl
    omega
  case isFalse hsf =>
  split
  case isTrue hp =>
    intro hcl
    omega
  case isFalse hp =>
  split
  case isTrue hcmd => exact fun _ => advanceProg st
  case isFalse hcmd =>
  have hs := sendFrame env.sendLevels st
    (pyStrip (beforeSemi (st.gcode_lines.getD st.current_line ""))) true env.sendCos
  intro hcl
  rcases handleSendProg env.loopCo
      (sendAux st (pyStrip (beforeSemi (st.gcode_lines.getD st.current_line "")))
        true env.sendLevels env.sendCos).1.1
      (sendAux st (pyStrip (beforeSemi (st.gcode_lines.getD st.current_line "")))
        true env.sendLevels env.sendCos).2.1 with hnc | hp
  · rw [hnc, hs.1] at hcl
    omega
  · exact hp

set_option maxRecDepth 100000 in
/-- Counterexample to C3, refuting three of its conjuncts on reachable
states.  (1) `progress = floor(current_line/total_lines*100)` fails in a
state: run a one-line job to completion, then `start_print` again — the
cursor is reset to 0 while progress stays 100 with `total_lines = 1 > 0`.
(2) The floor formula fails even at an observation point: after 29
acknowledged lines of a 100-line job the program's floating-point
`int((29/100)*100)` stores 28, not the floor 29.  (3) `paused ⇒ printing`
fails: a pause issued after the job's last line completes but before the
executor observes the exit leaves `paused = true` with `printing = false`. -/
theorem progressInvariantCex :
    (okTrace initState c3Trace = true ∧
     (run initState c3Trace).total_lines = 1 ∧
     (run initState c3Trace).current_line = 0 ∧
     (run initState c3Trace).progress = 100 ∧
     (run initState c3Trace).printing = true) ∧
    (okTrace initState floatTrace = true ∧
     (run initState floatTrace).current_line = 29 ∧
     (run initState floatTrace).total_lines = 100 ∧
     (run initState floatTrace).progress = 28 ∧
     29 * 100 / 100 = 29) ∧
    ((run initState pauseTrace).paused = true ∧
     (run initState pauseTrace).printing = false) := by
  decide

/-- Claim C3 as amended: under well-formed interleavings (one executor task
at a time, no job replacement while a job is active, pause only issued
mid-job before a stop — the pause restriction forced by part (3) of the
counterexample, the load/single-task restrictions by the spec's own
concurrency regime), every reachable state satisfies
`0 ≤ current_line ≤ total_lines` and `paused → printing`; progress equals
the program's floating-point `int((current_line/total_lines)*100)`
(`pyProgress`, not the exact floor, which differs at e.g. 29/100) immediately
after a load and immediately after every executor step that advances the
cursor — but not in every state, since `start_print` resets the cursor
without recomputing progress and loop exit can force progress to 100; and
the cursor never decreases except through load/start. -/
theorem stateInvariantsAmended :
    (∀ evs, okTrace initState evs = true →
      (run initState evs).current_line ≤ (run initState evs).total_lines ∧
      ((run initState evs).paused = true → (run initState evs).printing = true)) ∧
    (∀ st ls, ((loadGcode st ls).2).progress
        = pyProgress ((loadGcode st ls).2).current_line
            ((loadGcode st ls).2).total_lines) ∧
    (∀ st env, (printIter st env).current_line = st.current_line + 1 →
      (printIter st env).progress
        = pyProgress (printIter st env).current_line
            (printIter st env).total_lines) ∧
    (∀ st e, cursorKept e = true →
      st.current_line ≤ (step st e).current_line) := by
  refine ⟨?_, ?_, iterProgress, stepCursorMono⟩
  · intro evs hok
    have h := invRun evs initState
      ⟨Nat.le_refl 0, fun hsf => Bool.noConfusion hsf,
       fun hp1 => Bool.noConfusion hp1⟩ hok
    exact ⟨h.1, fun hp1 => (h.2.2 hp1).1⟩
  · intro st ls
    simp [loadGcode, pyProgress]

/-- Witness for C3 at concrete inputs: a well-formed trace, a load, an
executor step that advances the cursor, and a cursor-keeping event. -/
theorem stateInvariantsAmendedWitness :
    ((run initState c2Trace).current_line ≤ (run initState c2Trace).total_lines ∧
     ((run initState c2Trace).paused = true →
       (run initState c2Trace).printing = true)) ∧
    ((loadGcode initState ["G28"]).2).progress
      = pyProgress ((loadGcode initState ["G28"]).2).current_line
          ((loadGcode initState ["G28"]).2).total_lines ∧
    (printIter c5State envOk).progress
      = pyProgress (printIter c5State envOk).current_line
          (printIter c5State envOk).total_lines ∧
    initState.current_line ≤ (step initState .estop).current_line :=
  ⟨stateInvariantsAmended.1 c2Trace (by decide),
   stateInvariantsAmended.2.1 initState ["G28"],
   stateInvariantsAmended.2.2.1 c5State envOk (by decide),
   stateInvariantsAmended.2.2.2 initState .estop (by decide)⟩

end Ender3
